import Mathlib

/-!
Verification of the strategy_analyzer repository: a shallow embedding of
`time_helpers.py`, `portfolio_metrics.py` and `strategy_analyzer.py`.

Modelling conventions:
- Timestamps are integers counting nanoseconds (the resolution of a pandas
  DatetimeIndex); `nsPerDay` is the number of nanoseconds in a day.
- Exact rational arithmetic stands in for Python floats; the places where
  IEEE non-finite values are observable (division by a zero drawdown, the
  comparison of a NaN mode fraction) are modelled explicitly with `Option`
  and a dedicated `PyFloat` type.
- Python exceptions are modelled with `Except PyError`; code lines run in
  source order, so the first failing line determines the error.
-/

/-- Nanoseconds in one day: pandas datetimes have nanosecond resolution. -/
def nsPerDay : ℤ := 86400000000000

/-- A pandas `Timedelta` as the code uses it: every value the repository
builds from data is a whole number of days (`np.diff` cast to whole-day resolution),
and in pandas `Timedelta` arithmetic one week equals exactly 7 days, so the
string `1W` denotes `days 7`.  The literals `1M` and `1Y` that
`get_num_periods_per_year` compares against are durations of no fixed day
count in pandas; they are kept as distinguished tokens, never equal to any
day-valued duration. -/
inductive Timedelta where
  | days (n : ℚ)
  | month
  | year
deriving DecidableEq

/-- Python exceptions observable in this code base. -/
inductive PyError where
  | valueError (msg : String)
  | indexError
deriving DecidableEq

deriving instance DecidableEq for Except

namespace CalendarConvention

/-- `CalendarConvention.TRADING_DAYS`, the 252-day pandas Timedelta. -/
def TRADING_DAYS : Timedelta := Timedelta.days 252

/-- `CalendarConvention.CALENDAR_DAYS`, the 365-day pandas Timedelta. -/
def CALENDAR_DAYS : Timedelta := Timedelta.days 365

end CalendarConvention

/-- Rendering of an optional `Timedelta` into the message of the
`UnsupportedFrequency` error; abstracts the Python f-string interpolation
of the argument (`None` prints as the word None). -/
def tdStr : Option Timedelta → String
  | none => "None"
  | some (Timedelta.days n) => toString n ++ " days"
  | some Timedelta.month => "1M"
  | some Timedelta.year => "1Y"

/-- Python equality `time_delta == td` where `time_delta` may be `None`:
comparing `None` with a `Timedelta` is `False`, never an error. -/
def tdEq : Option Timedelta → Timedelta → Bool
  | none, _ => false
  | some a, b => a = b

/-- Division of two day-valued Timedeltas, as in
`calendar_convention / time_delta`; the only call site is guarded by
equality of the divisor with the one-day value, and both calendar
conventions are day-valued constants, so the token cases are unreachable
there. -/
def tdDivDays : Timedelta → Timedelta → ℚ
  | Timedelta.days a, Timedelta.days b => a / b
  | _, _ => 0

/-- Python truthiness of the optional `sharpe_time_frequency` argument:
`None` is falsy and so is a zero-length `Timedelta`. -/
def tdTruthy : Option Timedelta → Bool
  | none => false
  | some (Timedelta.days n) => decide (n ≠ 0)
  | some _ => true

/-- The message of the `UnsupportedFrequency` `ValueError` raised by
`get_num_periods_per_year`. -/
def unsupportedMsg (td : Option Timedelta) : String :=
  "Time delta must be in (1D, 1W, 1M, 1Y): " ++ tdStr td

/-- The message of the `AmbiguousFrequency` `ValueError` raised by
`_get_most_common_time_diff`. -/
def ambiguousMsg : String := "Mode percentage less than minimum mode percentage"

namespace TimeHelper

/-- `TimeHelper._get_time_diffs_seconds`: `np.diff(datetimes)` cast to the whole-day timedelta64 unit,
the consecutive differences of the nanosecond timestamps converted to whole
days; the numpy cast truncates toward zero, which is `Int.tdiv`. -/
def timeDiffsDays : List ℤ → List ℤ
  | a :: b :: rest => (b - a).tdiv nsPerDay :: timeDiffsDays (b :: rest)
  | _ => []

/-- The descending-by-count order `pd.Series.value_counts` sorts into. -/
def countGE (a b : ℤ × ℕ) : Prop := b.2 ≤ a.2

instance : DecidableRel countGE := fun a b => inferInstanceAs (Decidable (b.2 ≤ a.2))

instance : IsTotal (ℤ × ℕ) countGE := ⟨fun a b => Nat.le_total b.2 a.2⟩

instance : IsTrans (ℤ × ℕ) countGE := ⟨fun _ _ _ h1 h2 => Nat.le_trans h2 h1⟩

/-- `pd.Series(time_diffs).value_counts()`: the multiplicity of each distinct
value, listed in descending order of multiplicity. -/
def valueCounts (l : List ℤ) : List (ℤ × ℕ) :=
  List.insertionSort countGE (l.dedup.map (fun v => (v, l.count v)))

/-- `pd.Series.max()`: `none` models the NaN maximum of an empty series. -/
def seriesMax : List ℚ → Option ℚ
  | [] => none
  | x :: xs => some (xs.foldl max x)

/-- The Python comparison `mode_percentage < minimum_mode_percentage` where
the left side may be NaN (the max of an empty series): every comparison
against NaN is `False`. -/
def floatLt : Option ℚ → ℚ → Bool
  | none, _ => false
  | some x, p => decide (x < p)

/-- `TimeHelper._get_most_common_time_diff`, line for line: build the
`value_counts` of the gaps, divide by the number of gaps, take the maximum
of the distribution, index the first (modal) entry — an `IndexError` when
the distribution is empty — and raise the `AmbiguousFrequency` `ValueError`
when the mode percentage is below the threshold. -/
def get_most_common_time_diff (time_diffs : List ℤ)
    (minimum_mode_percentage : ℚ) : Except PyError ℤ :=
  let time_diff_counts := valueCounts time_diffs
  let time_diff_distribution :=
    time_diff_counts.map (fun q => (q.1, (q.2 : ℚ) / (time_diffs.length : ℚ)))
  let mode_percentage := seriesMax (time_diff_distribution.map (fun q => q.2))
  match time_diff_distribution.head? with
  | none => Except.error PyError.indexError
  | some time_diff_mode =>
    if floatLt mode_percentage minimum_mode_percentage then
      Except.error (PyError.valueError ambiguousMsg)
    else
      Except.ok time_diff_mode.1

/-- `TimeHelper.infer_frequency`: convert the input to a DatetimeIndex (the
identity on already-converted nanosecond timestamps), compute the whole-day
gaps, and return the most common gap. -/
def infer_frequency (datetimes : List ℤ) (minimum_mode_percentage : ℚ) :
    Except PyError ℤ :=
  let time_diffs := timeDiffsDays datetimes
  get_most_common_time_diff time_diffs minimum_mode_percentage

/-- `TimeHelper.get_num_periods_per_year`: the if/elif chain on the supplied
duration, which may be `None` (every equality test is then false); the
default calendar convention at every call site that omits it is
`TRADING_DAYS`. -/
def get_num_periods_per_year (time_delta : Option Timedelta)
    (calendar_convention : Timedelta) : Except PyError ℚ :=
  if tdEq time_delta (Timedelta.days 1) then
    Except.ok (tdDivDays calendar_convention (Timedelta.days 1))
  else if tdEq time_delta (Timedelta.days 7) then
    Except.ok 52
  else if tdEq time_delta Timedelta.month then
    Except.ok 12
  else if tdEq time_delta Timedelta.year then
    Except.ok 1
  else
    Except.error (PyError.valueError (unsupportedMsg time_delta))

end TimeHelper

namespace PortfolioMetrics

/-- A return series: a timestamp index (nanoseconds) and one value column. -/
structure RSeries where
  idx : List ℤ
  vals : List ℚ

/-- `Series.cumprod` with running accumulator `acc`. -/
def cumProdAux (acc : ℚ) : List ℚ → List ℚ
  | [] => []
  | x :: xs => (acc * x) :: cumProdAux (acc * x) xs

/-- `PortfolioMetrics.get_cumulative_returns`:
`returns_series.add(1).cumprod() - 1` shifted by `start_point`. -/
def get_cumulative_returns (returns_series : List ℚ) (start_point : ℚ) : List ℚ :=
  (cumProdAux 1 (returns_series.map (fun r => r + 1))).map
    (fun x => x - 1 + start_point)

/-- `PortfolioMetrics.get_returns_length_in_years`:
`(index[-1] - index[0]).days / 365.25`; the `.days` attribute of a pandas
Timedelta is the floor of the day count, and 365.25 is the exact rational
1461/4. Indexing an empty series raises. -/
def get_returns_length_in_years (idx : List ℤ) : Except PyError ℚ :=
  match idx.head?, idx.getLast? with
  | some start_date, some end_date =>
    Except.ok ((((end_date - start_date).fdiv nsPerDay : ℤ) : ℚ) / (1461 / 4))
  | _, _ => Except.error PyError.indexError

/-- `Series.cummax` on a nonempty tail, carrying the running maximum. -/
def cummaxGo (m : ℚ) : List ℚ → List ℚ
  | [] => []
  | x :: xs => max m x :: cummaxGo (max m x) xs

/-- `Series.cummax`: the running maximum of a series. -/
def cummax : List ℚ → List ℚ
  | [] => []
  | x :: xs => x :: cummaxGo x xs

/-- `Series.min`: `none` models the NaN minimum of an empty series. -/
def seriesMin : List ℚ → Option ℚ
  | [] => none
  | x :: xs => some (xs.foldl min x)

/-- `PortfolioMetrics.get_underwater`: the cumulative curve with
`start_point=1.0` divided pointwise by its running maximum, minus 1. -/
def get_underwater (returns_series : List ℚ) : List ℚ :=
  let cumulative := get_cumulative_returns returns_series 1
  List.zipWith (fun c m => c / m - 1) cumulative (cummax cumulative)

/-- `PortfolioMetrics.get_max_drawdown`: the minimum of the underwater
curve. -/
def get_max_drawdown (returns_series : List ℚ) : Option ℚ :=
  seriesMin (get_underwater returns_series)

/-- `Series.mean`: the arithmetic mean (exact-arithmetic idealization; the
empty-series NaN is not needed by any claim). -/
def seriesMean (l : List ℚ) : ℚ := l.sum / (l.length : ℚ)

/-- `Series.std` squared: the sample variance with `ddof=1`, as pandas
computes it (exact-arithmetic idealization). -/
def sampleVar (l : List ℚ) : ℚ :=
  (l.map (fun x => (x - seriesMean l) ^ 2)).sum / ((l.length : ℚ) - 1)

/-- `Series.std`: the square root of the sample variance. -/
noncomputable def stdR (l : List ℚ) : ℝ := Real.sqrt ((sampleVar l : ℚ) : ℝ)

/-- `PortfolioMetrics.get_sharpe_ratio`: the mean and standard deviation of
the raw returns are computed first (they never raise), then the
periods-per-year lookup runs, raising `UnsupportedFrequency` when
`time_frequency` is unsupported; in particular it is `None` by default. -/
noncomputable def get_sharpe_ratio (returns_series : List ℚ)
    (time_frequency : Option Timedelta) : Except PyError ℝ := do
  let return_means := seriesMean returns_series
  let return_stds := stdR returns_series
  let periods_per_year ← TimeHelper.get_num_periods_per_year time_frequency
    CalendarConvention.TRADING_DAYS
  pure (((return_means : ℚ) : ℝ) / return_stds *
    Real.sqrt ((periods_per_year : ℚ) : ℝ))

/-- `PortfolioMetrics.get_sortino_ratio`: the mean of all returns divided by
the standard deviation of the subset `returns_series[returns_series > 0]`
of strictly positive returns, scaled by the square root of the
periods-per-year. -/
noncomputable def get_sortino_ratio (returns_series : List ℚ)
    (time_frequency : Option Timedelta) : Except PyError ℝ := do
  let positive_returns := returns_series.filter (fun x => decide (0 < x))
  let return_means := seriesMean returns_series
  let return__negative_stds := stdR positive_returns
  let periods_per_year ← TimeHelper.get_num_periods_per_year time_frequency
    CalendarConvention.TRADING_DAYS
  pure (((return_means : ℚ) : ℝ) / return__negative_stds *
    Real.sqrt ((periods_per_year : ℚ) : ℝ))

/-- The conventional Sortino formula the specification contrasts the code
with: written from the words of the spec, with the denominator taken over
the strictly negative (downside) returns instead; for comparison only. -/
noncomputable def sortino_conventional_specdesc (returns_series : List ℚ)
    (periods_per_year : ℚ) : ℝ :=
  ((seriesMean returns_series : ℚ) : ℝ) /
    stdR (returns_series.filter (fun x => decide (x < 0))) *
    Real.sqrt ((periods_per_year : ℚ) : ℝ)

/-- Python `int()` applied to a nonnegative rational: truncation toward
zero (the rolling window is a ratio of two positive periods-per-year
figures, so the clamp of `Int.toNat` is never exercised). -/
def ratTrunc (q : ℚ) : ℕ := (q.num.tdiv (q.den : ℤ)).toNat

/-- `Series.pct_change(n)` followed by `dropna()`: the relative change over
a window of `n` rows; the first `n` undefined entries are dropped. -/
def pctChange (l : List ℚ) (n : ℕ) : List ℚ :=
  List.zipWith (fun a b => b / a - 1) l (l.drop n)

/-- Lines 71 to 84 of `PortfolioMetrics.get_annualized_volatility`: infer
the native frequency of the index, convert it and (when truthy) the
supplied target duration to periods-per-year, truncate their ratio to an
integer rolling window, and take windowed percentage changes of
`get_cumulative_returns(returns_series, start_point=1.0) + 1` — the
compounded curve shifted up by one.  Returns the windowed returns together
with the target periods-per-year that lines 85 to 87 consume. -/
def volatility_period_returns (s : RSeries)
    (sharpe_time_frequency : Option Timedelta)
    (calendar_convention : Timedelta) : Except PyError (List ℚ × ℚ) := do
  let series_time_frequency ← TimeHelper.infer_frequency s.idx (3/5)
  let series_periods_per_year ← TimeHelper.get_num_periods_per_year
    (some (Timedelta.days (series_time_frequency : ℚ))) calendar_convention
  let sharpe_periods_per_year ←
    if tdTruthy sharpe_time_frequency then
      TimeHelper.get_num_periods_per_year sharpe_time_frequency
        calendar_convention
    else
      TimeHelper.get_num_periods_per_year
        (some (Timedelta.days (series_time_frequency : ℚ))) calendar_convention
  let rolling_window := ratTrunc (sharpe_periods_per_year / series_periods_per_year)
  let cumulative_returns := (get_cumulative_returns s.vals 1).map (fun x => x + 1)
  let period_returns := pctChange cumulative_returns rolling_window
  pure (period_returns, sharpe_periods_per_year)

/-- `PortfolioMetrics.get_annualized_volatility`, lines 85 to 87: the
standard deviation of the windowed returns scaled by the square root of
the target periods-per-year. -/
noncomputable def get_annualized_volatility (s : RSeries)
    (sharpe_time_frequency : Option Timedelta)
    (calendar_convention : Timedelta) : Except PyError ℝ := do
  let pr ← volatility_period_returns s sharpe_time_frequency calendar_convention
  pure (stdR pr.1 * Real.sqrt ((pr.2 : ℚ) : ℝ))

end PortfolioMetrics

/-- An IEEE-style float result: finite, one of the two infinities, or NaN.
Used where the code divides by a quantity that can be exactly zero. -/
inductive PyFloat where
  | finite (x : ℝ)
  | inf
  | ninf
  | nan

open scoped Classical in
/-- IEEE float division of finite operands: a zero divisor yields NaN when
the dividend is zero and a signed infinity otherwise (the divisors arising
here are nonnegative zeros). -/
noncomputable def fdiv (a b : ℝ) : PyFloat :=
  if b = 0 then
    if a = 0 then PyFloat.nan else if 0 < a then PyFloat.inf else PyFloat.ninf
  else
    PyFloat.finite (a / b)

/-- `abs` applied to a possibly-NaN value. -/
def absO : Option ℚ → Option ℚ
  | none => none
  | some x => some |x|

/-- IEEE division of a possibly non-finite numerator by a rational (or NaN)
denominator, as in `annualized_return / maxdd`. -/
noncomputable def pfDiv : PyFloat → Option ℚ → PyFloat
  | _, none => PyFloat.nan
  | PyFloat.nan, _ => PyFloat.nan
  | PyFloat.finite x, some q => fdiv x ((q : ℚ) : ℝ)
  | PyFloat.inf, some q => if q < 0 then PyFloat.ninf else PyFloat.inf
  | PyFloat.ninf, some q => if q < 0 then PyFloat.inf else PyFloat.ninf

namespace PortfolioMetrics

/-- `PortfolioMetrics.get_annualized_return`:
`np.log(cumulative_returns.iloc[-1]) / years` on the curve with
`start_point=1.0`; the division is IEEE (years can be zero), and indexing
an empty curve or index raises. -/
noncomputable def get_annualized_return (s : RSeries) : Except PyError PyFloat := do
  let cumulative_returns := get_cumulative_returns s.vals 1
  let years ← get_returns_length_in_years s.idx
  match cumulative_returns.getLast? with
  | none => Except.error PyError.indexError
  | some c => pure (fdiv (Real.log ((c : ℚ) : ℝ)) ((years : ℚ) : ℝ))

/-- `PortfolioMetrics.get_calmar_ratio`:
`annualized_return / abs(max_drawdown)` with IEEE division. -/
noncomputable def get_calmar_ratio (s : RSeries) : Except PyError PyFloat := do
  let annualized_return ← get_annualized_return s
  let maxdd := absO (get_max_drawdown s.vals)
  pure (pfDiv annualized_return maxdd)

theorem get_cumulative_returns_one (s : List ℚ) :
    get_cumulative_returns s 1 = cumProdAux 1 (s.map (fun r => r + 1)) := by
  unfold get_cumulative_returns
  have h1 : (fun x : ℚ => x - 1 + 1) = fun x => x := by funext x; ring
  rw [h1, List.map_id']

theorem cumProdAux_pos (t : List ℚ) : ∀ a : ℚ, 0 < a → (∀ x ∈ t, 0 < x) →
    ∀ y ∈ cumProdAux a t, 0 < y := by
  induction t with
  | nil => intro a _ _ y hy; simp [cumProdAux] at hy
  | cons x xs ih =>
    intro a ha hx y hy
    have hax : 0 < a * x := mul_pos ha (hx x (by simp))
    simp only [cumProdAux, List.mem_cons] at hy
    rcases hy with h | h
    · exact h ▸ hax
    · exact ih (a * x) hax (fun z hz => hx z (by simp [hz])) y h

theorem cummaxGo_of_chain (l : List ℚ) : ∀ m : ℚ,
    (m :: l).Chain' (fun a b => a ≤ b) → cummaxGo m l = l := by
  induction l with
  | nil => intro m _; rfl
  | cons y ys ih =>
    intro m hc
    rw [List.chain'_cons] at hc
    have hmy : max m y = y := max_eq_right hc.1
    simp only [cummaxGo, hmy]
    rw [ih y hc.2]

theorem cummax_of_chain (l : List ℚ) (h : l.Chain' (fun a b => a ≤ b)) :
    cummax l = l := by
  cases l with
  | nil => rfl
  | cons x xs => simp only [cummax]; rw [cummaxGo_of_chain xs x h]

theorem zipWith_div_self (l : List ℚ) (h : ∀ x ∈ l, x ≠ 0) :
    List.zipWith (fun c m => c / m - 1) l l = List.replicate l.length 0 := by
  induction l with
  | nil => rfl
  | cons x xs ih =>
    simp only [List.zipWith, List.length_cons, List.replicate]
    rw [div_self (h x (by simp)), ih (fun z hz => h z (by simp [hz]))]
    norm_num

theorem underwaterGo_nonpos (l : List ℚ) : ∀ m : ℚ, 0 < m → (∀ y ∈ l, 0 < y) →
    ∀ z ∈ List.zipWith (fun c mx => c / mx - 1) l (cummaxGo m l), z ≤ 0 := by
  induction l with
  | nil => intro m _ _ z hz; simp at hz
  | cons y ys ih =>
    intro m hm hl z hz
    have hy : 0 < y := hl y (by simp)
    have hmax : 0 < max m y := lt_max_of_lt_right hy
    simp only [cummaxGo, List.zipWith, List.mem_cons] at hz
    rcases hz with h | h
    · have hle : y / max m y ≤ 1 :=
        div_le_one_of_le₀ (le_max_right m y) (le_of_lt hmax)
      rw [h]; linarith
    · exact ih (max m y) hmax (fun w hw => hl w (by simp [hw])) z h

theorem underwater_nonpos_aux (c : List ℚ) (hc : ∀ y ∈ c, 0 < y) :
    ∀ z ∈ List.zipWith (fun x mx => x / mx - 1) c (cummax c), z ≤ 0 := by
  cases c with
  | nil => intro z hz; simp at hz
  | cons x xs =>
    intro z hz
    have hx : 0 < x := hc x (by simp)
    simp only [cummax, List.zipWith, List.mem_cons] at hz
    rcases hz with h | h
    · rw [h, div_self (ne_of_gt hx)]; norm_num
    · exact underwaterGo_nonpos xs x hx (fun w hw => hc w (by simp [hw])) z h

end PortfolioMetrics

/-- The windowed returns as the specification describes them: identical to
`volatility_period_returns` except that the percentage changes are taken on
the compounded cumulative curve started at 1 itself, with no further shift;
written from the words of the spec for comparison with the code. -/
def volatility_period_returns_specdesc (s : PortfolioMetrics.RSeries)
    (sharpe_time_frequency : Option Timedelta)
    (calendar_convention : Timedelta) : Except PyError (List ℚ × ℚ) := do
  let series_time_frequency ← TimeHelper.infer_frequency s.idx (3/5)
  let series_periods_per_year ← TimeHelper.get_num_periods_per_year
    (some (Timedelta.days (series_time_frequency : ℚ))) calendar_convention
  let sharpe_periods_per_year ←
    if tdTruthy sharpe_time_frequency then
      TimeHelper.get_num_periods_per_year sharpe_time_frequency
        calendar_convention
    else
      TimeHelper.get_num_periods_per_year
        (some (Timedelta.days (series_time_frequency : ℚ))) calendar_convention
  let rolling_window := PortfolioMetrics.ratTrunc
    (sharpe_periods_per_year / series_periods_per_year)
  let cumulative_returns := PortfolioMetrics.get_cumulative_returns s.vals 1
  let period_returns := PortfolioMetrics.pctChange cumulative_returns rolling_window
  pure (period_returns, sharpe_periods_per_year)

namespace StrategyAnalyzer

/-- `StrategyAnalyzer.get_returns_length_in_years`:
`(index.max() - index.min()).days / Period.CALENDAR_DAYS_PER_YEAR`, and the
constant `CALENDAR_DAYS_PER_YEAR` is 365.0 (not 365.25). -/
def get_returns_length_in_years (idx : List ℤ) : Except PyError ℚ :=
  match idx.max?, idx.min? with
  | some hi, some lo =>
    Except.ok ((((hi - lo).fdiv nsPerDay : ℤ) : ℚ) / 365)
  | _, _ => Except.error PyError.indexError

end StrategyAnalyzer

namespace PortfolioMetrics

theorem cumProdAux_length (a : ℚ) (t : List ℚ) :
    (cumProdAux a t).length = t.length := by
  induction t generalizing a with
  | nil => rfl
  | cons x xs ih => simp [cumProdAux, ih]

theorem zipWith_sub_map_map (f g : ℚ → ℚ) (b : List ℚ) :
    List.zipWith (fun x y => x - y) (b.map f) (b.map g) =
      b.map (fun x => f x - g x) := by
  induction b with
  | nil => rfl
  | cons x xs ih => simp [ih]

theorem map_fun_one (b : List ℚ) :
    b.map (fun _ => (1 : ℚ)) = List.replicate b.length 1 := by
  induction b with
  | nil => rfl
  | cons x xs ih => simp [ih, List.replicate]

end PortfolioMetrics

/-- C4: the start point of the cumulative curve is a pure additive shift:
at every index, `get_cumulative_returns s 1` minus `get_cumulative_returns s 0`
equals exactly 1. -/
theorem cumulative_returns_shift_invariance (s : List ℚ) :
    List.zipWith (fun a b => a - b)
      (PortfolioMetrics.get_cumulative_returns s 1)
      (PortfolioMetrics.get_cumulative_returns s 0) =
    List.replicate s.length 1 := by
  unfold PortfolioMetrics.get_cumulative_returns
  rw [PortfolioMetrics.zipWith_sub_map_map]
  have h1 : (fun x : ℚ => (x - 1 + 1) - (x - 1 + 0)) = fun _ : ℚ => (1 : ℚ) := by
    funext x; ring
  rw [h1, PortfolioMetrics.map_fun_one, PortfolioMetrics.cumProdAux_length,
    List.length_map]

/-- C2: `get_num_periods_per_year` maps a 1-day duration to the number of
days of the convention (252 trading days, 365 calendar days), a 1-week
duration to 52, a 1-month duration to 12 and a 1-year duration to 1 under
every convention, and raises the `UnsupportedFrequency` `ValueError` on
every other duration, such as 3 days. -/
theorem get_num_periods_per_year_table :
    (TimeHelper.get_num_periods_per_year (some (Timedelta.days 1))
        CalendarConvention.TRADING_DAYS = Except.ok 252)
    ∧ (TimeHelper.get_num_periods_per_year (some (Timedelta.days 1))
        CalendarConvention.CALENDAR_DAYS = Except.ok 365)
    ∧ (∀ c : Timedelta,
        TimeHelper.get_num_periods_per_year (some (Timedelta.days 7)) c =
          Except.ok 52)
    ∧ (∀ c : Timedelta,
        TimeHelper.get_num_periods_per_year (some Timedelta.month) c =
          Except.ok 12)
    ∧ (∀ c : Timedelta,
        TimeHelper.get_num_periods_per_year (some Timedelta.year) c =
          Except.ok 1)
    ∧ (∀ td c : Timedelta, td ≠ Timedelta.days 1 → td ≠ Timedelta.days 7 →
        td ≠ Timedelta.month → td ≠ Timedelta.year →
        TimeHelper.get_num_periods_per_year (some td) c =
          Except.error (PyError.valueError (unsupportedMsg (some td)))) := by
  refine ⟨?_, ?_, fun c => rfl, fun c => rfl, fun c => rfl,
    fun td c h1 h7 hm hy => ?_⟩
  · norm_num [TimeHelper.get_num_periods_per_year, tdEq, tdDivDays,
      CalendarConvention.TRADING_DAYS]
  · norm_num [TimeHelper.get_num_periods_per_year, tdEq, tdDivDays,
      CalendarConvention.CALENDAR_DAYS]
  · simp [TimeHelper.get_num_periods_per_year, tdEq, h1, h7, hm, hy]

/-- Witness for C2: the 3-day duration raises `UnsupportedFrequency`. -/
theorem get_num_periods_per_year_table_witness :
    TimeHelper.get_num_periods_per_year (some (Timedelta.days 3))
        CalendarConvention.TRADING_DAYS =
      Except.error (PyError.valueError (unsupportedMsg (some (Timedelta.days 3)))) :=
  get_num_periods_per_year_table.2.2.2.2.2 (Timedelta.days 3)
    CalendarConvention.TRADING_DAYS (by decide) (by decide) (by decide) (by decide)

/-- C9: with no duration supplied, `get_sharpe_ratio` and
`get_sortino_ratio` pass `None` to `get_num_periods_per_year`, where it
matches none of the supported durations, so both raise the
`UnsupportedFrequency` `ValueError` on every series. -/
theorem default_none_duration_unsupported (s : List ℚ) :
    PortfolioMetrics.get_sharpe_ratio s none =
      Except.error (PyError.valueError (unsupportedMsg none))
    ∧ PortfolioMetrics.get_sortino_ratio s none =
      Except.error (PyError.valueError (unsupportedMsg none)) :=
  ⟨rfl, rfl⟩

/-- C3: the code computes the windowed volatility returns on
`get_cumulative_returns(returns_series, 1.0) + 1`, a curve shifted one
above the compounded cumulative curve, and therefore diverges from the
percentage changes of the compounded curve started at 1 that the
specification describes; at a 3-point daily series of returns 1/10, 1/5,
3/10 the code produces 11/105 and 99/580 where the description yields the
raw windowed returns 1/5 and 3/10. -/
theorem annualized_volatility_shifted_curve_bug :
    PortfolioMetrics.volatility_period_returns
        ⟨[0, nsPerDay, 2 * nsPerDay], [1/10, 1/5, 3/10]⟩ none
        CalendarConvention.TRADING_DAYS =
      Except.ok ([11/105, 99/580], 252)
    ∧ volatility_period_returns_specdesc
        ⟨[0, nsPerDay, 2 * nsPerDay], [1/10, 1/5, 3/10]⟩ none
        CalendarConvention.TRADING_DAYS =
      Except.ok ([1/5, 3/10], 252)
    ∧ ([11/105, 99/580] : List ℚ) ≠ [1/5, 3/10] := by
  have hfreq : TimeHelper.infer_frequency [0, nsPerDay, 2 * nsPerDay] (3/5) =
      Except.ok 1 := by
    norm_num [TimeHelper.infer_frequency, TimeHelper.get_most_common_time_diff,
      TimeHelper.timeDiffsDays, TimeHelper.valueCounts, TimeHelper.seriesMax,
      TimeHelper.floatLt, nsPerDay, List.insertionSort, List.orderedInsert,
      TimeHelper.countGE]
  have hppy : TimeHelper.get_num_periods_per_year
      (some (Timedelta.days ((1 : ℤ) : ℚ))) CalendarConvention.TRADING_DAYS =
      Except.ok 252 := by
    norm_num [TimeHelper.get_num_periods_per_year, tdEq, tdDivDays,
      CalendarConvention.TRADING_DAYS]
  have hcum : PortfolioMetrics.get_cumulative_returns [1/10, 1/5, 3/10] 1 =
      [11/10, 33/25, 429/250] := by
    norm_num [PortfolioMetrics.get_cumulative_returns, PortfolioMetrics.cumProdAux]
  have hwin : PortfolioMetrics.ratTrunc ((252 : ℚ) / 252) = 1 := by
    norm_num [PortfolioMetrics.ratTrunc]
  refine ⟨?_, ?_, ?_⟩
  · simp only [PortfolioMetrics.volatility_period_returns, hfreq, bind,
      Except.bind, tdTruthy, if_neg, Bool.false_eq_true, hppy, hwin, hcum]
    norm_num [PortfolioMetrics.pctChange, pure, Except.pure]
  · simp only [volatility_period_returns_specdesc, hfreq, bind,
      Except.bind, tdTruthy, if_neg, Bool.false_eq_true, hppy, hwin, hcum]
    norm_num [PortfolioMetrics.pctChange, pure, Except.pure]
  · norm_num

theorem timeDiffsDays_of_short (ts : List ℤ) (h : ts.length < 2) :
    TimeHelper.timeDiffsDays ts = [] := by
  match ts with
  | [] => rfl
  | [a] => rfl
  | a :: b :: rest => simp at h; omega

/-- C10: on fewer than 2 timestamps the gap list is empty; the comparison of
the NaN maximum of the empty distribution with the threshold is false, and
`infer_frequency` raises an `IndexError` while selecting the mode — not the
`AmbiguousFrequency` `ValueError`. -/
theorem infer_frequency_short_input (ts : List ℤ) (p : ℚ) (h : ts.length < 2) :
    TimeHelper.timeDiffsDays ts = []
    ∧ TimeHelper.floatLt (TimeHelper.seriesMax []) p = false
    ∧ TimeHelper.infer_frequency ts p = Except.error PyError.indexError
    ∧ (∀ msg : String, (Except.error PyError.indexError : Except PyError ℤ) ≠
        Except.error (PyError.valueError msg)) := by
  have hd := timeDiffsDays_of_short ts h
  refine ⟨hd, rfl, ?_, by intro msg; simp⟩
  simp [TimeHelper.infer_frequency, hd, TimeHelper.get_most_common_time_diff,
    TimeHelper.valueCounts, List.insertionSort]

/-- Witness for C10 at the one-point input. -/
theorem infer_frequency_short_input_witness :
    ([0] : List ℤ).length < 2
    ∧ (TimeHelper.timeDiffsDays [0] = []
       ∧ TimeHelper.floatLt (TimeHelper.seriesMax []) (3/5) = false
       ∧ TimeHelper.infer_frequency [0] (3/5) = Except.error PyError.indexError
       ∧ (∀ msg : String, (Except.error PyError.indexError : Except PyError ℤ) ≠
           Except.error (PyError.valueError msg))) :=
  ⟨by decide, infer_frequency_short_input [0] (3/5) (by decide)⟩

/-- C8 counterexample: over a span of 1461 whole days, the
`StrategyAnalyzer` years-elapsed figure is 1461/365, which differs from the
1461/365.25 = 4 that the claim states for the repository's years-elapsed
denominator. -/
theorem years_denominator_counterexample :
    StrategyAnalyzer.get_returns_length_in_years [0, 1461 * nsPerDay] =
      Except.ok (1461 / 365)
    ∧ ((1461 : ℚ) / 365) ≠ 1461 / (1461 / 4) := by
  constructor
  · have hmax : ([0, 1461 * nsPerDay] : List ℤ).max? = some (1461 * nsPerDay) := by
      decide
    have hmin : ([0, 1461 * nsPerDay] : List ℤ).min? = some 0 := by decide
    have hdiv : (1461 * nsPerDay : ℤ).fdiv nsPerDay = 1461 := by decide
    simp [StrategyAnalyzer.get_returns_length_in_years, hmax, hmin, hdiv]
  · norm_num

/-- C8 amended: for every index with at least one point,
`PortfolioMetrics.get_returns_length_in_years` is the whole days between the
first and last timestamps divided by 365.25, while
`StrategyAnalyzer.get_returns_length_in_years` is the whole days between the
smallest and largest timestamps divided by 365. -/
theorem years_elapsed_amended (idx : List ℤ) (a b lo hi : ℤ)
    (ha : idx.head? = some a) (hb : idx.getLast? = some b)
    (hlo : idx.min? = some lo) (hhi : idx.max? = some hi) :
    PortfolioMetrics.get_returns_length_in_years idx =
      Except.ok ((((b - a).fdiv nsPerDay : ℤ) : ℚ) / (1461 / 4))
    ∧ StrategyAnalyzer.get_returns_length_in_years idx =
      Except.ok ((((hi - lo).fdiv nsPerDay : ℤ) : ℚ) / 365) := by
  constructor
  · simp [PortfolioMetrics.get_returns_length_in_years, ha, hb]
  · simp [StrategyAnalyzer.get_returns_length_in_years, hlo, hhi]

/-- Witness for the amended C8 at a two-point index one day apart. -/
theorem years_elapsed_amended_witness :
    PortfolioMetrics.get_returns_length_in_years [0, nsPerDay] =
      Except.ok ((((nsPerDay - 0).fdiv nsPerDay : ℤ) : ℚ) / (1461 / 4))
    ∧ StrategyAnalyzer.get_returns_length_in_years [0, nsPerDay] =
      Except.ok ((((nsPerDay - 0).fdiv nsPerDay : ℤ) : ℚ) / 365) :=
  years_elapsed_amended [0, nsPerDay] 0 nsPerDay 0 nsPerDay
    (by decide) (by decide) (by decide) (by decide)

/-- C5: for every series and supported duration, `get_sortino_ratio` is the
mean of all the returns divided by the standard deviation of only the
strictly positive returns, scaled by the square root of the periods per
year — and this differs from the conventional downside (negative-return)
denominator, as a 4-point series shows. -/
theorem sortino_positive_denominator :
    (∀ (s : List ℚ) (d : Timedelta) (q : ℚ),
      TimeHelper.get_num_periods_per_year (some d) CalendarConvention.TRADING_DAYS =
        Except.ok q →
      PortfolioMetrics.get_sortino_ratio s (some d) =
        Except.ok (((PortfolioMetrics.seriesMean s : ℚ) : ℝ) /
          Real.sqrt ((PortfolioMetrics.sampleVar
            (s.filter (fun x => decide (0 < x))) : ℚ) : ℝ) *
          Real.sqrt ((q : ℚ) : ℝ)))
    ∧ PortfolioMetrics.get_sortino_ratio [1/10, 3/10, -1/10, -1/5]
        (some (Timedelta.days 7)) ≠
      Except.ok (PortfolioMetrics.sortino_conventional_specdesc
        [1/10, 3/10, -1/10, -1/5] 52) := by
  have hmain : ∀ (s : List ℚ) (d : Timedelta) (q : ℚ),
      TimeHelper.get_num_periods_per_year (some d) CalendarConvention.TRADING_DAYS =
        Except.ok q →
      PortfolioMetrics.get_sortino_ratio s (some d) =
        Except.ok (((PortfolioMetrics.seriesMean s : ℚ) : ℝ) /
          Real.sqrt ((PortfolioMetrics.sampleVar
            (s.filter (fun x => decide (0 < x))) : ℚ) : ℝ) *
          Real.sqrt ((q : ℚ) : ℝ)) := by
    intro s d q h
    simp [PortfolioMetrics.get_sortino_ratio, PortfolioMetrics.stdR, h, bind,
      Except.bind, pure, Except.pure]
  refine ⟨hmain, ?_⟩
  rw [hmain [1/10, 3/10, -1/10, -1/5] (Timedelta.days 7) 52 rfl]
  have hpos : ([1/10, 3/10, -1/10, -1/5] : List ℚ).filter
      (fun x => decide (0 < x)) = [1/10, 3/10] := by
    norm_num [List.filter]
  have hneg : ([1/10, 3/10, -1/10, -1/5] : List ℚ).filter
      (fun x => decide (x < 0)) = [-1/10, -1/5] := by
    norm_num [List.filter]
  have hm : PortfolioMetrics.seriesMean [1/10, 3/10, -1/10, -1/5] = 1/40 := by
    norm_num [PortfolioMetrics.seriesMean]
  have hvp : PortfolioMetrics.sampleVar [1/10, 3/10] = 1/50 := by
    norm_num [PortfolioMetrics.sampleVar, PortfolioMetrics.seriesMean]
  have hvn : PortfolioMetrics.sampleVar [-1/10, -1/5] = 1/200 := by
    norm_num [PortfolioMetrics.sampleVar, PortfolioMetrics.seriesMean]
  simp only [PortfolioMetrics.sortino_conventional_specdesc,
    PortfolioMetrics.stdR, hpos, hneg, hm, hvp, hvn, Except.ok.injEq, ne_eq]
  push_cast
  have h52 : (0:ℝ) < Real.sqrt ((52 : ℝ)) := Real.sqrt_pos.mpr (by norm_num)
  have h200 : (0:ℝ) < Real.sqrt ((1/200 : ℝ)) := Real.sqrt_pos.mpr (by norm_num)
  have hsq : Real.sqrt ((1/200 : ℝ)) < Real.sqrt ((1/50 : ℝ)) :=
    Real.sqrt_lt_sqrt (by norm_num) (by norm_num)
  have hd : (1/40 : ℝ) / Real.sqrt ((1/50 : ℝ)) <
      (1/40 : ℝ) / Real.sqrt ((1/200 : ℝ)) :=
    div_lt_div_of_pos_left (by norm_num) h200 hsq
  intro heq
  have := mul_lt_mul_of_pos_right hd h52
  rw [heq] at this
  exact lt_irrefl _ this

/-- Witness for C5 at a 2-point series with the weekly duration. -/
theorem sortino_positive_denominator_witness :
    PortfolioMetrics.get_sortino_ratio [1/10, -1/20] (some (Timedelta.days 7)) =
      Except.ok (((PortfolioMetrics.seriesMean [1/10, -1/20] : ℚ) : ℝ) /
        Real.sqrt ((PortfolioMetrics.sampleVar
          (([1/10, -1/20] : List ℚ).filter (fun x => decide (0 < x))) : ℚ) : ℝ) *
        Real.sqrt (((52 : ℚ)) : ℝ)) :=
  sortino_positive_denominator.1 [1/10, -1/20] (Timedelta.days 7) 52 rfl

/-- C6 counterexample: for the series with a return of -200 percent the
cumulative curve turns negative and the underwater curve rises above zero:
`get_underwater [-2, 1/2] = [0, 1/2]`, whose second point violates the
claimed nonpositivity. -/
theorem underwater_positive_counterexample :
    PortfolioMetrics.get_underwater [-2, 1/2] = [0, 1/2]
    ∧ ¬ (∀ x ∈ PortfolioMetrics.get_underwater [-2, 1/2], x ≤ 0) := by
  have h : PortfolioMetrics.get_underwater [-2, 1/2] = [0, 1/2] := by
    norm_num [PortfolioMetrics.get_underwater,
      PortfolioMetrics.get_cumulative_returns, PortfolioMetrics.cumProdAux,
      PortfolioMetrics.cummax, PortfolioMetrics.cummaxGo, List.zipWith, max_def]
  refine ⟨h, ?_⟩
  rw [h]
  push_neg
  refine ⟨1/2, by simp, by norm_num⟩

/-- C6 amended: for every return series whose returns all exceed -1 (so the
compounded curve stays positive), `get_underwater` is the cumulative curve
started at 1 divided by its running maximum minus 1, and it is nonpositive
at every point. -/
theorem underwater_nonpositive_amended (s : List ℚ) (h : ∀ r ∈ s, -1 < r) :
    PortfolioMetrics.get_underwater s =
      List.zipWith (fun c m => c / m - 1)
        (PortfolioMetrics.get_cumulative_returns s 1)
        (PortfolioMetrics.cummax (PortfolioMetrics.get_cumulative_returns s 1))
    ∧ ∀ x ∈ PortfolioMetrics.get_underwater s, x ≤ 0 := by
  have hpos : ∀ y ∈ PortfolioMetrics.get_cumulative_returns s 1, 0 < y := by
    rw [PortfolioMetrics.get_cumulative_returns_one]
    refine PortfolioMetrics.cumProdAux_pos _ 1 one_pos ?_
    intro x hx
    rw [List.mem_map] at hx
    obtain ⟨r, hr, rfl⟩ := hx
    have := h r hr
    linarith
  exact ⟨rfl, fun x hx =>
    PortfolioMetrics.underwater_nonpos_aux _ hpos x hx⟩

/-- Witness for the amended C6 at a small two-point series. -/
theorem underwater_nonpositive_amended_witness :
    (∀ r ∈ ([1/10, -1/20] : List ℚ), -1 < r)
    ∧ (PortfolioMetrics.get_underwater [1/10, -1/20] =
        List.zipWith (fun c m => c / m - 1)
          (PortfolioMetrics.get_cumulative_returns [1/10, -1/20] 1)
          (PortfolioMetrics.cummax
            (PortfolioMetrics.get_cumulative_returns [1/10, -1/20] 1))
       ∧ ∀ x ∈ PortfolioMetrics.get_underwater [1/10, -1/20], x ≤ 0) :=
  ⟨by norm_num, underwater_nonpositive_amended [1/10, -1/20] (by norm_num)⟩

namespace PortfolioMetrics

theorem cumProdAux_chain (t : List ℚ) : ∀ a : ℚ, 0 < a → (∀ x ∈ t, 1 ≤ x) →
    (cumProdAux a t).Chain' (fun u v => u ≤ v) := by
  induction t with
  | nil => intro a _ _; simp [cumProdAux]
  | cons x xs ih =>
    intro a ha hx
    have hx1 : 1 ≤ x := hx x (by simp)
    have hax : 0 < a * x := mul_pos ha (lt_of_lt_of_le one_pos hx1)
    cases xs with
    | nil => simp [cumProdAux]
    | cons w ws =>
      have hrec := ih (a * x) hax (fun z hz => hx z (by simp [hz]))
      have hhead : a * x ≤ a * x * w :=
        le_mul_of_one_le_right (le_of_lt hax) (hx w (by simp))
      show List.Chain' _ ((a * x) :: cumProdAux (a * x) (w :: ws))
      rw [show cumProdAux (a * x) (w :: ws) =
          (a * x * w) :: cumProdAux (a * x * w) ws from rfl] at hrec ⊢
      rw [List.chain'_cons]
      exact ⟨hhead, hrec⟩

theorem cumProdAux_getLast (t : List ℚ) : ∀ a : ℚ, 0 < a → (∀ x ∈ t, 1 < x) →
    t ≠ [] → ∃ c : ℚ, (cumProdAux a t).getLast? = some c ∧ a < c := by
  induction t with
  | nil => intro a _ _ hne; exact absurd rfl hne
  | cons x xs ih =>
    intro a ha hx _
    have hx1 : 1 < x := hx x (by simp)
    have hax : 0 < a * x := mul_pos ha (lt_trans one_pos hx1)
    cases xs with
    | nil =>
      refine ⟨a * x, ?_, lt_mul_of_one_lt_right ha hx1⟩
      simp [cumProdAux]
    | cons w ws =>
      obtain ⟨c, hc, hlt⟩ := ih (a * x) hax (fun z hz => hx z (by simp [hz]))
        (by simp)
      refine ⟨c, ?_, lt_trans (lt_mul_of_one_lt_right ha hx1) hlt⟩
      show ((a * x) :: cumProdAux (a * x) (w :: ws)).getLast? = some c
      rw [show cumProdAux (a * x) (w :: ws) =
          (a * x * w) :: cumProdAux (a * x * w) ws from rfl] at hc ⊢
      rw [List.getLast?_cons_cons]
      exact hc

theorem underwater_replicate (n : ℕ) (r : ℚ) (hr : 0 < r) :
    get_underwater (List.replicate n r) = List.replicate n 0 := by
  have hmap : (List.replicate n r).map (fun x => x + 1) =
      List.replicate n (r + 1) := by
    rw [List.map_replicate]
  have hfac1 : ∀ x ∈ List.replicate n (r + 1), 1 ≤ x := by
    intro x hx
    rw [List.eq_of_mem_replicate hx]
    linarith
  have hfac0 : ∀ x ∈ List.replicate n (r + 1), 0 < x := by
    intro x hx
    rw [List.eq_of_mem_replicate hx]
    linarith
  have hchain := cumProdAux_chain (List.replicate n (r + 1)) 1 one_pos hfac1
  have hpos := cumProdAux_pos (List.replicate n (r + 1)) 1 one_pos hfac0
  show List.zipWith _ (get_cumulative_returns (List.replicate n r) 1)
      (cummax (get_cumulative_returns (List.replicate n r) 1)) =
    List.replicate n 0
  rw [get_cumulative_returns_one, hmap, cummax_of_chain _ hchain,
    zipWith_div_self _ (fun x hx => ne_of_gt (hpos x hx)),
    cumProdAux_length, List.length_replicate]

theorem foldl_min_zero (k : ℕ) :
    List.foldl min (0 : ℚ) (List.replicate k 0) = 0 := by
  induction k with
  | zero => rfl
  | succ m ih => simpa [List.replicate] using ih

theorem seriesMin_replicate_zero (n : ℕ) (hn : 1 ≤ n) :
    seriesMin (List.replicate n 0) = some 0 := by
  cases n with
  | zero => exact absurd hn (by norm_num)
  | succ m =>
    show seriesMin ((0 : ℚ) :: List.replicate m 0) = some 0
    simp only [seriesMin, foldl_min_zero]

theorem pairwise_head_le_getLast (l : List ℤ)
    (h : l.Pairwise (fun u v => u ≤ v)) (a b : ℤ)
    (ha : l.head? = some a) (hb : l.getLast? = some b) : a ≤ b := by
  cases l with
  | nil => simp at ha
  | cons x xs =>
    rw [List.head?_cons, Option.some.injEq] at ha
    have hbm : b ∈ x :: xs := List.mem_of_mem_getLast? hb
    rw [← ha]
    rcases List.mem_cons.mp hbm with h1 | h1
    · exact le_of_eq h1.symm
    · exact (List.pairwise_cons.mp h).1 b h1

end PortfolioMetrics

theorem pfDiv_fdiv_pos_zero (L Y : ℝ) (hL : 0 < L) (hY : 0 ≤ Y) :
    pfDiv (fdiv L Y) (some 0) = PyFloat.inf := by
  rcases eq_or_lt_of_le hY with h0 | h0
  · rw [fdiv, if_pos h0.symm, if_neg (ne_of_gt hL), if_pos hL]
    simp [pfDiv]
  · rw [fdiv, if_neg (ne_of_gt h0)]
    have hq : (((0 : ℚ) : ℝ)) = 0 := by norm_num
    simp only [pfDiv, hq]
    rw [fdiv, if_pos rfl, if_neg (ne_of_gt (div_pos hL h0)),
      if_pos (div_pos hL h0)]

/-- C7: for a series paying a constant strictly positive return every
period the maximum drawdown is exactly 0, and the Calmar ratio is the
non-finite value positive infinity from dividing by the zero absolute
drawdown, not an exception. -/
theorem constant_positive_return_drawdown_calmar
    (s : PortfolioMetrics.RSeries) (n : ℕ) (r : ℚ)
    (hr : 0 < r) (hn : 1 ≤ n) (hv : s.vals = List.replicate n r)
    (hidx : s.idx ≠ []) (hmono : s.idx.Pairwise (fun u v => u ≤ v)) :
    PortfolioMetrics.get_max_drawdown s.vals = some 0
    ∧ PortfolioMetrics.get_calmar_ratio s = Except.ok PyFloat.inf := by
  have hmdd : PortfolioMetrics.get_max_drawdown s.vals = some 0 := by
    rw [hv, PortfolioMetrics.get_max_drawdown,
      PortfolioMetrics.underwater_replicate n r hr,
      PortfolioMetrics.seriesMin_replicate_zero n hn]
  obtain ⟨a, ha⟩ : ∃ a, s.idx.head? = some a := by
    cases h : s.idx.head? with
    | some a => exact ⟨a, rfl⟩
    | none => exact absurd (List.head?_eq_none_iff.mp h) hidx
  obtain ⟨b, hb⟩ : ∃ b, s.idx.getLast? = some b := by
    cases h : s.idx.getLast? with
    | some b => exact ⟨b, rfl⟩
    | none => exact absurd (List.getLast?_eq_none_iff.mp h) hidx
  have hab : a ≤ b :=
    PortfolioMetrics.pairwise_head_le_getLast s.idx hmono a b ha hb
  have hyears : PortfolioMetrics.get_returns_length_in_years s.idx =
      Except.ok ((((b - a).fdiv nsPerDay : ℤ) : ℚ) / (1461/4)) := by
    simp [PortfolioMetrics.get_returns_length_in_years, ha, hb]
  set y : ℚ := (((b - a).fdiv nsPerDay : ℤ) : ℚ) / (1461/4) with hy
  have hy0 : (0 : ℚ) ≤ y := by
    apply div_nonneg
    · exact_mod_cast Int.fdiv_nonneg (sub_nonneg.mpr hab)
        (by norm_num [nsPerDay])
    · norm_num
  have hfac : ∀ x ∈ (List.replicate n r).map (fun v => v + 1), 1 < x := by
    intro x hx
    rw [List.map_replicate] at hx
    rw [List.eq_of_mem_replicate hx]
    linarith
  have hne : (List.replicate n r).map (fun v => v + 1) ≠ [] := by
    cases n with
    | zero => exact absurd hn (by norm_num)
    | succ m => simp [List.map_replicate, List.replicate]
  obtain ⟨c, hc, hc1⟩ := PortfolioMetrics.cumProdAux_getLast
    ((List.replicate n r).map (fun v => v + 1)) 1 one_pos hfac hne
  have hcurve : (PortfolioMetrics.get_cumulative_returns s.vals 1).getLast? =
      some c := by
    rw [hv, PortfolioMetrics.get_cumulative_returns_one]
    exact hc
  have hlog : 0 < Real.log ((c : ℚ) : ℝ) :=
    Real.log_pos (by exact_mod_cast hc1)
  have hann : PortfolioMetrics.get_annualized_return s =
      Except.ok (fdiv (Real.log ((c : ℚ) : ℝ)) ((y : ℚ) : ℝ)) := by
    rw [PortfolioMetrics.get_annualized_return]
    simp [hyears, hcurve, bind, Except.bind, pure, Except.pure]
  have habs : absO (some (0 : ℚ)) = some 0 := by simp [absO]
  have hcal : PortfolioMetrics.get_calmar_ratio s =
      Except.ok (pfDiv (fdiv (Real.log ((c : ℚ) : ℝ)) ((y : ℚ) : ℝ))
        (some 0)) := by
    simp [PortfolioMetrics.get_calmar_ratio, hann, hmdd, habs, bind,
      Except.bind, pure, Except.pure]
  refine ⟨hmdd, ?_⟩
  rw [hcal, pfDiv_fdiv_pos_zero _ _ hlog (by exact_mod_cast hy0)]

/-- Witness for C7: two periods of a constant 10 percent return one day
apart. -/
theorem constant_positive_return_drawdown_calmar_witness :
    PortfolioMetrics.get_max_drawdown
        (PortfolioMetrics.RSeries.mk [0, nsPerDay] [1/10, 1/10]).vals = some 0
    ∧ PortfolioMetrics.get_calmar_ratio
        (PortfolioMetrics.RSeries.mk [0, nsPerDay] [1/10, 1/10]) =
      Except.ok PyFloat.inf :=
  constant_positive_return_drawdown_calmar
    (PortfolioMetrics.RSeries.mk [0, nsPerDay] [1/10, 1/10]) 2 (1/10)
    (by norm_num) (by norm_num) rfl (by simp)
    (by simp [List.pairwise_cons]; norm_num [nsPerDay])

namespace TimeHelper

theorem length_timeDiffsDays_cons (t : List ℤ) : ∀ a : ℤ,
    (timeDiffsDays (a :: t)).length = t.length := by
  induction t with
  | nil => intro a; rfl
  | cons b rest ih =>
    intro a
    show ((b - a).tdiv nsPerDay :: timeDiffsDays (b :: rest)).length = rest.length + 1
    rw [List.length_cons, ih b]

theorem foldl_max_of_le (xs : List ℚ) : ∀ acc : ℚ, (∀ y ∈ xs, y ≤ acc) →
    xs.foldl max acc = acc := by
  induction xs with
  | nil => intro acc _; rfl
  | cons y ys ih =>
    intro acc h
    simp only [List.foldl]
    rw [max_eq_left (h y (by simp))]
    exact ih acc (fun z hz => h z (by simp [hz]))

theorem seriesMax_cons_of_le (x : ℚ) (xs : List ℚ) (h : ∀ y ∈ xs, y ≤ x) :
    seriesMax (x :: xs) = some x := by
  simp only [seriesMax]
  rw [foldl_max_of_le xs x h]

theorem mem_valueCounts (l : List ℤ) (v : ℤ) (c : ℕ) :
    (v, c) ∈ valueCounts l ↔ v ∈ l ∧ c = l.count v := by
  unfold valueCounts
  rw [(List.perm_insertionSort countGE _).mem_iff]
  constructor
  · intro h
    rw [List.mem_map] at h
    obtain ⟨w, hw, he⟩ := h
    rw [Prod.mk.injEq] at he
    obtain ⟨he1, he2⟩ := he
    subst he1
    exact ⟨List.mem_dedup.mp hw, he2.symm⟩
  · rintro ⟨h1, h2⟩
    rw [List.mem_map]
    exact ⟨v, List.mem_dedup.mpr h1, by rw [h2]⟩

theorem sorted_valueCounts (l : List ℤ) : (valueCounts l).Pairwise countGE :=
  List.sorted_insertionSort countGE _

theorem valueCounts_ne_nil (l : List ℤ) (h : l ≠ []) : valueCounts l ≠ [] := by
  intro hc
  have hlen := (List.perm_insertionSort countGE
    (l.dedup.map (fun v => (v, l.count v)))).length_eq
  rw [show List.insertionSort countGE (l.dedup.map (fun v => (v, l.count v))) =
      valueCounts l from rfl, hc] at hlen
  simp only [List.length_nil, List.length_map] at hlen
  have hd : l.dedup = [] := List.length_eq_zero.mp hlen.symm
  exact h ((List.dedup_eq_nil _).mp hd)

end TimeHelper

/-- C1: for every list of at least 2 timestamps, `infer_frequency` selects
a gap value of maximal multiplicity among the consecutive whole-day gaps,
returns it when its fraction of all gaps reaches the threshold, and raises
the `AmbiguousFrequency` `ValueError` exactly when that fraction is
strictly below the threshold. -/
theorem infer_frequency_mode_threshold (ts : List ℤ) (p : ℚ)
    (h : 2 ≤ ts.length) :
    ∃ v : ℤ, v ∈ TimeHelper.timeDiffsDays ts
      ∧ (∀ w ∈ TimeHelper.timeDiffsDays ts,
          (TimeHelper.timeDiffsDays ts).count w ≤
            (TimeHelper.timeDiffsDays ts).count v)
      ∧ TimeHelper.infer_frequency ts p =
          (if ((TimeHelper.timeDiffsDays ts).count v : ℚ) /
              ((TimeHelper.timeDiffsDays ts).length : ℚ) < p
           then Except.error (PyError.valueError ambiguousMsg)
           else Except.ok v) := by
  set D := TimeHelper.timeDiffsDays ts with hD
  have hlen : 1 ≤ D.length := by
    cases ts with
    | nil => simp at h
    | cons a t =>
      rw [hD, TimeHelper.length_timeDiffsDays_cons t a]
      simp at h
      omega
  have hDne : D ≠ [] := by
    intro hc
    rw [hc] at hlen
    simp at hlen
  obtain ⟨⟨v, c⟩, rest, hvc⟩ :
      ∃ q rest, TimeHelper.valueCounts D = q :: rest := by
    cases hq : TimeHelper.valueCounts D with
    | nil => exact absurd hq (TimeHelper.valueCounts_ne_nil D hDne)
    | cons q r => exact ⟨q, r, rfl⟩
  have hmemhead : (v, c) ∈ TimeHelper.valueCounts D := by
    rw [hvc]
    simp
  have hvcount := (TimeHelper.mem_valueCounts D v c).mp hmemhead
  have hsorted := TimeHelper.sorted_valueCounts D
  rw [hvc, List.pairwise_cons] at hsorted
  have hmax : ∀ w ∈ D, D.count w ≤ c := by
    intro w hw
    have hwm : (w, D.count w) ∈ TimeHelper.valueCounts D :=
      (TimeHelper.mem_valueCounts D w (D.count w)).mpr ⟨hw, rfl⟩
    rw [hvc, List.mem_cons] at hwm
    rcases hwm with h1 | h1
    · exact le_of_eq (congrArg Prod.snd h1)
    · exact hsorted.1 _ h1
  refine ⟨v, hvcount.1, fun w hw => hvcount.2 ▸ hmax w hw, ?_⟩
  have hlenpos : (0 : ℚ) < (D.length : ℚ) := by
    exact_mod_cast hlen
  show TimeHelper.get_most_common_time_diff D p = _
  simp only [TimeHelper.get_most_common_time_diff, hvc, List.map_cons,
    List.head?_cons]
  have htail : ∀ y ∈ (rest.map
      (fun q => (q.1, (q.2 : ℚ) / (D.length : ℚ)))).map (fun q => q.2),
      y ≤ (c : ℚ) / (D.length : ℚ) := by
    intro y hy
    rw [List.map_map, List.mem_map] at hy
    obtain ⟨⟨w, k⟩, hwk, rfl⟩ := hy
    have hk : (k : ℚ) ≤ (c : ℚ) := by
      exact_mod_cast hsorted.1 (w, k) hwk
    show (k : ℚ) / (D.length : ℚ) ≤ (c : ℚ) / (D.length : ℚ)
    gcongr
  rw [TimeHelper.seriesMax_cons_of_le _ _ htail]
  rw [hvcount.2]
  by_cases hcase : ((D.count v : ℚ)) / (D.length : ℚ) < p
  · simp [TimeHelper.floatLt, hcase]
  · simp [TimeHelper.floatLt, hcase]

/-- Witness for C1 at three consecutive daily timestamps with threshold
0.6. -/
theorem infer_frequency_mode_threshold_witness :
    2 ≤ ([0, nsPerDay, 2 * nsPerDay] : List ℤ).length
    ∧ ∃ v : ℤ, v ∈ TimeHelper.timeDiffsDays [0, nsPerDay, 2 * nsPerDay]
      ∧ (∀ w ∈ TimeHelper.timeDiffsDays [0, nsPerDay, 2 * nsPerDay],
          (TimeHelper.timeDiffsDays [0, nsPerDay, 2 * nsPerDay]).count w ≤
            (TimeHelper.timeDiffsDays [0, nsPerDay, 2 * nsPerDay]).count v)
      ∧ TimeHelper.infer_frequency [0, nsPerDay, 2 * nsPerDay] (3/5) =
          (if ((TimeHelper.timeDiffsDays [0, nsPerDay, 2 * nsPerDay]).count v : ℚ) /
              ((TimeHelper.timeDiffsDays [0, nsPerDay, 2 * nsPerDay]).length : ℚ) <
              (3/5 : ℚ)
           then Except.error (PyError.valueError ambiguousMsg)
           else Except.ok v) :=
  ⟨by decide,
    infer_frequency_mode_threshold [0, nsPerDay, 2 * nsPerDay] (3/5) (by decide)⟩
